import Mathlib

/-!
Verification of the checkpointed extraction pipeline of this repository:
a shallow embedding of `c42seceventcli/aed/main.py` (the AED extraction
driver) and of `src/code42cli/cmds/alerts.py` (the alert search commands),
with theorems settling the specification's claims about them.

Timestamps are modelled as integers (epoch seconds): a date string supplied
on the command line is represented by the timestamp it resolves to, since
the string-to-timestamp parsing (`common.parse_timestamp`,
`convert_datetime_to_timestamp`) lives outside `src/` and is plumbing
around the engine.  The observable behaviour of one invocation of `main()`
is a trace: the list of effectful actions it performs (constructing the
formatter and the sink, resetting the cursor store, issuing the extraction
query), together with an optional error on which the process exits with a
non-zero status (every `exit(...)` call in `main.py` is `exit(1)`).
-/

namespace C42

abbrev Timestamp := Int

/-- The look-back boundary of `_parse_min_timestamp`:
`datetime.utcnow() - timedelta(days=90)` converted to an epoch timestamp. -/
def lookbackBoundary (now : Timestamp) : Timestamp := now - 90 * 86400

/-- The distinct reasons for which `main()` terminates before completing a
run.  Every one of them makes the process exit with status `1`. -/
inductive RunError where
  | destinationError
  | formatError
  | sinkConfigError
  | authError
  | lookbackError
  | validationError
deriving DecidableEq, Repr

/-- Every early exit in `aed/main.py` is `exit(1)`. -/
def exitCode : RunError → Nat := fun _ => 1

/-- The effectful actions one run of `main()` can perform, in the order they
appear in its trace. -/
inductive Action where
  | mkFormatter (fmt : String)
  | mkSink
  | resetStore
  | deleteCheckpoint (name : String)
  | query (minTs : Timestamp) (maxTs : Option Timestamp)
deriving DecidableEq, Repr

/-- Whether an action is the issuing of an extraction query. -/
def Action.isQuery : Action → Bool
  | .query _ _ => true
  | _ => false

/-- The command-line arguments of `aed/main.py` that the engine consumes
(`begin_ts` is the timestamp `--begin` resolves to, `end_ts` the optional
timestamp `--end` resolves to). -/
structure Args where
  destination_type : String
  destination : Option String
  record_cursor : Bool
  clear_cursor : Bool
  output_format : String
  begin_ts : Timestamp
  end_ts : Option Timestamp
deriving DecidableEq, Repr

/-- The environment of one run: the current UTC time, whether the sink
configuration is actually usable (DNS resolvable hostname / writable file
path), whether the supplied credentials authenticate, and the content of the
cursor store for this profile. -/
structure Env where
  now : Timestamp
  sinkOk : Bool
  authOk : Bool
  storedCursor : Option Timestamp
deriving DecidableEq, Repr

/-- `_verify_destination_args` from `aed/main.py`: rejects a destination
supplied together with the stdout destination type, and a missing
destination for the file or server destination types; each rejection prints
and calls `exit(1)`. -/
def verify_destination_args (a : Args) : Except RunError Unit :=
  if a.destination_type = "stdout" ∧ a.destination.isSome then
    .error .destinationError
  else if a.destination_type = "file" ∧ a.destination.isNone then
    .error .destinationError
  else if a.destination_type = "server" ∧ a.destination.isNone then
    .error .destinationError
  else
    .ok ()

/-- The disjunction of the three rejection conditions of
`_verify_destination_args`, as a single predicate for stating theorems. -/
def destination_invalid (a : Args) : Bool :=
  (a.destination_type == "stdout" && a.destination.isSome)
    || (a.destination_type == "file" && a.destination.isNone)
    || (a.destination_type == "server" && a.destination.isNone)

/-- `_get_log_formatter` from `aed/main.py`: returns the JSON formatter for
exactly `"JSON"`, the CEF formatter for exactly `"CEF"` (the comparison is
Python `==` on strings, hence case-sensitive), and otherwise prints
"Unsupported output format" and calls `exit(1)`.  The formatter object
itself is an external-library value; it is represented by its tag. -/
def get_log_formatter (output_format : String) : Except RunError String :=
  if output_format = "JSON" then .ok "JSON"
  else if output_format = "CEF" then .ok "CEF"
  else .error .formatError

/-- `_get_logger` from `aed/main.py`: builds the output sink, and on
`gaierror` (DNS resolution failure of a server destination), `AttributeError`
or `IOError` (unusable file path) prints and calls `exit(1)`.  The failure
condition itself arises inside `common.get_logger`, code outside `src/`; it
is abstracted by the `sinkOk` oracle of `Env`. -/
def get_logger (env : Env) : Except RunError Unit :=
  if env.sinkOk then .ok () else .error .sinkConfigError

/-- `_set_up_cursor_store` from `aed/main.py`: when `record_cursor` or
`clear_cursor` is set a store is created; `clear_cursor` triggers
`store.reset()`; `record_cursor` wires the store's getter and setter into the
handlers.  The trace records the `reset()` call. -/
def set_up_cursor_store (record_cursor clear_cursor : Bool) : List Action :=
  if record_cursor || clear_cursor then
    if clear_cursor then [.resetStore] else []
  else []

/-- `_create_sdk_from_args` from `aed/main.py`: on any exception from the
SDK constructor it reports the error, prints "Incorrect username or
password." and calls `exit(1)`.  Whether authentication succeeds is decided
by the external `py42` SDK, abstracted by the `authOk` oracle of `Env`. -/
def create_sdk (env : Env) : Except RunError Unit :=
  if env.authOk then .ok () else .error .authError

/-- `_parse_min_timestamp` from `aed/main.py`: resolves `--begin` to a
timestamp and exits with status `1` when it is strictly below the 90-day
look-back boundary computed from the current UTC time. -/
def parse_min_timestamp (begin_ts now : Timestamp) : Except RunError Timestamp :=
  if begin_ts < lookbackBoundary now then .error .lookbackError
  else .ok begin_ts

/-- Modelled from the spec: `AEDEventExtractor.extract` (the extractor body
is not under `src/`; §4.2 step 1 of the spec).  The effective
`min_timestamp` is the stored cursor verbatim when the cursor getter is
wired and a cursor exists; the run is rejected with a `ValidationError`
when the supplied `max_timestamp` precedes the supplied `min_timestamp`;
otherwise the paginated query is issued over the resolved window. -/
def extractor_extract (getCursor : Option Timestamp) (minTs : Timestamp)
    (maxTs : Option Timestamp) : Except RunError Action :=
  match maxTs with
  | some m =>
      if m < minTs then .error .validationError
      else .ok (.query (getCursor.getD minTs) (some m))
  | none => .ok (.query (getCursor.getD minTs) none)

/-- The control flow of `main()` from `aed/main.py`: verify the destination
arguments, build the handlers (formatter, then sink logger), set up the
cursor store, create the SDK, then `_extract` (validate `--begin` against
the look-back boundary, resolve the window and issue the query).  Returns
the trace of actions performed together with the error of the early exit,
if any. -/
def run_main (a : Args) (env : Env) : List Action × Option RunError :=
  match verify_destination_args a with
  | .error e => ([], some e)
  | .ok _ =>
    match get_log_formatter a.output_format with
    | .error e => ([], some e)
    | .ok fmt =>
      match get_logger env with
      | .error e => ([.mkFormatter fmt], some e)
      | .ok _ =>
        match create_sdk env with
        | .error e =>
          ([Action.mkFormatter fmt, Action.mkSink]
            ++ set_up_cursor_store a.record_cursor a.clear_cursor, some e)
        | .ok _ =>
          match parse_min_timestamp a.begin_ts env.now with
          | .error e =>
            ([Action.mkFormatter fmt, Action.mkSink]
              ++ set_up_cursor_store a.record_cursor a.clear_cursor, some e)
          | .ok minTs =>
            match extractor_extract
                (if a.record_cursor then env.storedCursor else none)
                minTs a.end_ts with
            | .error e =>
              ([Action.mkFormatter fmt, Action.mkSink]
                ++ set_up_cursor_store a.record_cursor a.clear_cursor, some e)
            | .ok q =>
              ([Action.mkFormatter fmt, Action.mkSink]
                ++ set_up_cursor_store a.record_cursor a.clear_cursor ++ [q], none)

/-- An event record returned by the remote API: an opaque mapping of field
name to value (the engine never interprets the fields itself). -/
structure Record where
  fields : List (String × String)
deriving DecidableEq, Repr

/-- The response handler built by `_get_response_handler` in `aed/main.py`:
the response body, already parsed as JSON into a mapping whose values of
interest are lists of event records, is scanned for the key `"fileEvents"`;
when present, every event of the list is passed through the logger (one
formatted output line per event, in list order); when absent, nothing is
written and no error is reported. -/
def handle_response (format : Record → String)
    (response_dict : List (String × List Record)) : Except String (List String) :=
  match response_dict.lookup "fileEvents" with
  | some events => .ok (events.map format)
  | none => .ok []

/-- The boolean passed to `handle_no_events` by the `search` and `send_to`
commands of `cmds/alerts.py`: `not handlers.TOTAL_EVENTS and not
errors.ERRORED` (Python truthiness: an integer is falsy exactly when it is
zero). -/
def no_events_flag (totalEvents : Nat) (errored : Bool) : Bool :=
  (totalEvents == 0) && !errored

/-- The outcome a completed run reports to the user. -/
inductive RunReport where
  | noResults
  | errored
  | success
deriving DecidableEq, Repr

/-- The result of one completed run, as the spec's `RunResult`. -/
structure RunResult where
  total_events : Nat
  had_errors : Bool
deriving DecidableEq, Repr

/-- Modelled from the spec: `handle_no_events` (in
`code42cli/cmds/search/extraction.py`, not under `src/`) reports the
distinct "no results" outcome when handed `true`; an errored run is
otherwise reported as an error, and anything else as success.  The boolean
handed to it is `no_events_flag`, computed in `cmds/alerts.py`. -/
def run_report (r : RunResult) : RunReport :=
  if no_events_flag r.total_events r.had_errors then .noResults
  else if r.had_errors then .errored
  else .success

/-- The cursor store of one profile: at most one stored timestamp per
checkpoint name (`AlertCursorStore` is keyed by profile name; its backing
file is not under `src/`). -/
def StoreState := List (String × Timestamp)

/-- Modelled from the spec: `AlertCursorStore.delete` (in
`code42cli/cmds/search/cursor_store.py`, not under `src/`) — idempotent
removal of the single value stored under the checkpoint name; deleting an
absent checkpoint is not an error. -/
def store_delete (s : StoreState) (name : String) : StoreState :=
  s.filter (fun p => p.1 ≠ name)

/-- The `clear_checkpoint` command of `cmds/alerts.py`: look up the alert
cursor store of the profile and call `delete(checkpoint_name)`; nothing
else happens — in particular no extractor is constructed and no query is
issued.  Returns the new store state and the trace of actions. -/
def clear_checkpoint (store : StoreState) (checkpoint_name : String) :
    StoreState × List Action :=
  (store_delete store checkpoint_name, [.deleteCheckpoint checkpoint_name])

/-- The process exit status determined by the outcome of a run: `1` for any
early exit (every `exit(...)` call in `main.py` is `exit(1)`), `0` when the
run proceeded. -/
def exitStatus : Option RunError → Nat
  | some e => exitCode e
  | none => 0

/-- A destination-valid, JSON-format argument set whose begin date lies on
the look-back boundary of `sampleEnv` (90 days of 86400 seconds before
`sampleEnv.now`). -/
def sampleArgs : Args :=
  { destination_type := "stdout", destination := none, record_cursor := false,
    clear_cursor := false, output_format := "JSON",
    begin_ts := 7776000, end_ts := none }

/-- An environment whose look-back boundary is timestamp `0` and whose
sink, credentials and cursor store are healthy. -/
def sampleEnv : Env :=
  { now := 7776000, sinkOk := true, authOk := true, storedCursor := none }

/-- A concrete formatter for witnesses: joins the field values. -/
def sampleFormat : Record → String := fun r =>
  String.intercalate "," (r.fields.map (fun p => p.2))

/-- A concrete event record for witnesses. -/
def sampleRecordA : Record := ⟨[("a", "1")]⟩

/-- A second concrete event record for witnesses. -/
def sampleRecordB : Record := ⟨[("b", "2")]⟩

/-- A parsed response body holding two events under `"fileEvents"`. -/
def sampleDict : List (String × List Record) :=
  [("fileEvents", [sampleRecordA, sampleRecordB])]

/-- A parsed response body with no `"fileEvents"` key. -/
def sampleDictNoEvents : List (String × List Record) :=
  [("problems", []), ("totalCount", [])]

/-- Arguments of the C6 counterexample: checkpoint recording enabled while
the begin date lies strictly before the look-back boundary. -/
def cexArgs : Args :=
  { sampleArgs with record_cursor := true, begin_ts := -1 }

/-- Environment of the C6 counterexample: a stored cursor exists. -/
def cexEnv : Env :=
  { sampleEnv with storedCursor := some 100 }

/-! Helper lemmas characterizing the individual steps of `main()`. -/

theorem exitStatus_eq_one_of_isSome (o : Option RunError)
    (h : o.isSome = true) : exitStatus o = 1 := by
  cases o with
  | none => exact absurd h (by simp)
  | some e => rfl

theorem verify_ok_of_valid (a : Args) (hd : destination_invalid a = false) :
    verify_destination_args a = .ok () := by
  unfold destination_invalid at hd
  unfold verify_destination_args
  rw [if_neg, if_neg, if_neg]
  · rintro ⟨h1, h2⟩
    simp [h1, h2] at hd
  · rintro ⟨h1, h2⟩
    simp [h1, h2] at hd
  · rintro ⟨h1, h2⟩
    simp [h1, h2] at hd

theorem verify_err_of_invalid (a : Args) (hd : destination_invalid a = true) :
    verify_destination_args a = .error .destinationError := by
  unfold destination_invalid at hd
  simp only [Bool.or_eq_true, Bool.and_eq_true, beq_iff_eq] at hd
  unfold verify_destination_args
  rcases hd with (⟨h1, h2⟩ | ⟨h1, h2⟩) | ⟨h1, h2⟩
  · rw [if_pos ⟨h1, h2⟩]
  · have hne : ¬(a.destination_type = "stdout" ∧ a.destination.isSome = true) := by
      rintro ⟨hc, -⟩
      rw [h1] at hc
      exact absurd hc (by decide)
    rw [if_neg hne, if_pos ⟨h1, h2⟩]
  · have hne1 : ¬(a.destination_type = "stdout" ∧ a.destination.isSome = true) := by
      rintro ⟨hc, -⟩
      rw [h1] at hc
      exact absurd hc (by decide)
    have hne2 : ¬(a.destination_type = "file" ∧ a.destination.isNone = true) := by
      rintro ⟨hc, -⟩
      rw [h1] at hc
      exact absurd hc (by decide)
    rw [if_neg hne1, if_neg hne2, if_pos ⟨h1, h2⟩]

theorem get_log_formatter_ok_eq (s fmt : String)
    (h : get_log_formatter s = .ok fmt) : fmt = s := by
  unfold get_log_formatter at h
  by_cases h1 : s = "JSON"
  · rw [if_pos h1] at h
    injection h with h
    rw [← h, h1]
  · rw [if_neg h1] at h
    by_cases h2 : s = "CEF"
    · rw [if_pos h2] at h
      injection h with h
      rw [← h, h2]
    · rw [if_neg h2] at h
      exact absurd h (by simp)

theorem get_log_formatter_ok_of (s : String) (h : s = "JSON" ∨ s = "CEF") :
    get_log_formatter s = .ok s := by
  rcases h with h | h <;> subst h <;> rfl

theorem get_logger_ok_sink (env : Env) (h : get_logger env = .ok ()) :
    env.sinkOk = true := by
  unfold get_logger at h
  split at h
  · assumption
  · exact absurd h (by simp)

theorem create_sdk_ok_auth (env : Env) (h : create_sdk env = .ok ()) :
    env.authOk = true := by
  unfold create_sdk at h
  split at h
  · assumption
  · exact absurd h (by simp)

theorem parse_min_ok (b n m : Timestamp)
    (h : parse_min_timestamp b n = .ok m) :
    lookbackBoundary n ≤ b ∧ m = b := by
  unfold parse_min_timestamp at h
  split at h
  · exact absurd h (by simp)
  · exact ⟨le_of_not_lt (by assumption), by injection h with h; exact h.symm⟩

theorem parse_min_ok_of (b n : Timestamp) (h : lookbackBoundary n ≤ b) :
    parse_min_timestamp b n = .ok b := by
  unfold parse_min_timestamp
  rw [if_neg (not_lt.mpr h)]

theorem extractor_ok (gc : Option Timestamp) (minTs : Timestamp)
    (maxTs : Option Timestamp) (q : Action)
    (h : extractor_extract gc minTs maxTs = .ok q) :
    q = .query (gc.getD minTs) maxTs ∧ ∀ m, maxTs = some m → ¬ m < minTs := by
  cases maxTs with
  | none =>
    simp only [extractor_extract] at h
    refine ⟨?_, by intro m hm; exact absurd hm (by simp)⟩
    injection h with h
    exact h.symm
  | some m =>
    simp only [extractor_extract] at h
    by_cases hlt : m < minTs
    · rw [if_pos hlt] at h
      exact absurd h (by simp)
    · rw [if_neg hlt] at h
      refine ⟨by injection h with h; exact h.symm, ?_⟩
      intro m' hm'
      injection hm' with hm'
      subst hm'
      exact hlt

theorem extractor_ok_of (gc : Option Timestamp) (minTs : Timestamp)
    (maxTs : Option Timestamp) (he : ∀ m, maxTs = some m → minTs ≤ m) :
    extractor_extract gc minTs maxTs = .ok (.query (gc.getD minTs) maxTs) := by
  cases maxTs with
  | none => rfl
  | some m =>
    simp only [extractor_extract]
    rw [if_neg (not_lt.mpr (he m rfl))]

theorem set_up_cursor_store_no_query (rc cc : Bool) :
    (set_up_cursor_store rc cc).all (fun x => !x.isQuery) = true := by
  unfold set_up_cursor_store
  split
  · split <;> rfl
  · rfl

theorem set_up_cursor_store_clear (rc : Bool) :
    set_up_cursor_store rc true = [.resetStore] := by
  unfold set_up_cursor_store
  simp

theorem pre_trace_no_query (fmt : String) (rc cc : Bool) :
    (([Action.mkFormatter fmt, Action.mkSink]
        ++ set_up_cursor_store rc cc).all (fun x => !x.isQuery)) = true := by
  rw [List.all_append, set_up_cursor_store_no_query]
  rfl

theorem run_main_shape (a : Args) (env : Env) :
    ((run_main a env).2.isSome = true
        ∧ (run_main a env).1.all (fun x => !x.isQuery) = true)
    ∨ (destination_invalid a = false
        ∧ env.sinkOk = true
        ∧ env.authOk = true
        ∧ lookbackBoundary env.now ≤ a.begin_ts
        ∧ (∀ m, a.end_ts = some m → a.begin_ts ≤ m)
        ∧ run_main a env =
            ([Action.mkFormatter a.output_format, Action.mkSink]
              ++ set_up_cursor_store a.record_cursor a.clear_cursor
              ++ [Action.query
                    ((if a.record_cursor then env.storedCursor else none).getD
                      a.begin_ts) a.end_ts],
             none)) := by
  unfold run_main
  split
  · exact Or.inl ⟨rfl, rfl⟩
  · rename_i u hv
    split
    · exact Or.inl ⟨rfl, rfl⟩
    · rename_i fmt hf
      split
      · exact Or.inl ⟨rfl, rfl⟩
      · rename_i u2 hl
        split
        · exact Or.inl ⟨rfl, pre_trace_no_query fmt a.record_cursor a.clear_cursor⟩
        · rename_i u3 hs
          split
          · exact Or.inl ⟨rfl, pre_trace_no_query fmt a.record_cursor a.clear_cursor⟩
          · rename_i minTs hm
            split
            · exact Or.inl
                ⟨rfl, pre_trace_no_query fmt a.record_cursor a.clear_cursor⟩
            · rename_i q he
              right
              have hdv : destination_invalid a = false := by
                cases hdz : destination_invalid a with
                | false => rfl
                | true =>
                  rw [verify_err_of_invalid a hdz] at hv
                  exact absurd hv (by simp)
              have hmin := parse_min_ok a.begin_ts env.now minTs hm
              have hext := extractor_ok
                (if a.record_cursor then env.storedCursor else none)
                minTs a.end_ts q he
              refine ⟨hdv, get_logger_ok_sink env hl, create_sdk_ok_auth env hs,
                hmin.1, ?_, ?_⟩
              · intro m hm'
                have := hext.2 m hm'
                rw [hmin.2] at this
                exact le_of_not_lt this
              · rw [get_log_formatter_ok_eq a.output_format fmt hf, hext.1, hmin.2]

theorem run_main_ok_of (a : Args) (env : Env)
    (hd : destination_invalid a = false)
    (hf : a.output_format = "JSON" ∨ a.output_format = "CEF")
    (hs : env.sinkOk = true)
    (ha : env.authOk = true)
    (hb : lookbackBoundary env.now ≤ a.begin_ts)
    (he : ∀ m, a.end_ts = some m → a.begin_ts ≤ m) :
    run_main a env =
      ([Action.mkFormatter a.output_format, Action.mkSink]
        ++ set_up_cursor_store a.record_cursor a.clear_cursor
        ++ [Action.query
              ((if a.record_cursor then env.storedCursor else none).getD
                a.begin_ts) a.end_ts],
       none) := by
  have h1 := verify_ok_of_valid a hd
  have h2 := get_log_formatter_ok_of a.output_format hf
  have h3 : get_logger env = .ok () := by unfold get_logger; rw [if_pos hs]
  have h4 : create_sdk env = .ok () := by unfold create_sdk; rw [if_pos ha]
  have h5 := parse_min_ok_of a.begin_ts env.now hb
  have h6 := extractor_ok_of
    (if a.record_cursor then env.storedCursor else none) a.begin_ts a.end_ts he
  simp only [run_main, h1, h2, h3, h4, h5, h6]

/-! Theorems settling the claims. -/

/-- C1: a `--begin` date resolving strictly earlier than 90 days before the
current UTC time makes the run exit with status 1 before any query is
issued, while a begin date within the look-back window — the other
validations passing — is accepted and the run proceeds to the extraction
query. -/
theorem begin_lookback_validation (a : Args) (env : Env) :
    (a.begin_ts < lookbackBoundary env.now →
      exitStatus (run_main a env).2 = 1
        ∧ (run_main a env).1.all (fun x => !x.isQuery) = true)
    ∧ (lookbackBoundary env.now ≤ a.begin_ts →
        destination_invalid a = false →
        (a.output_format = "JSON" ∨ a.output_format = "CEF") →
        env.sinkOk = true → env.authOk = true →
        (∀ m, a.end_ts = some m → a.begin_ts ≤ m) →
        (run_main a env).2 = none
          ∧ (run_main a env).1.any (fun x => x.isQuery) = true) := by
  constructor
  · intro hlt
    rcases run_main_shape a env with h | h
    · exact ⟨exitStatus_eq_one_of_isSome _ h.1, h.2⟩
    · exact absurd h.2.2.2.1 (not_le.mpr hlt)
  · intro hb hd hf hs ha he
    rw [run_main_ok_of a env hd hf hs ha hb he]
    refine ⟨rfl, ?_⟩
    simp [List.any_append, Action.isQuery]

/-- Witness for C1: a begin date on the look-back boundary is accepted and
the query is issued; a begin date one unit earlier is rejected with no
query issued. -/
theorem begin_lookback_validation_witness :
    ((run_main sampleArgs sampleEnv).2 = none
        ∧ (run_main sampleArgs sampleEnv).1.any (fun x => x.isQuery) = true)
      ∧ (exitStatus (run_main { sampleArgs with begin_ts := -1 } sampleEnv).2 = 1
        ∧ (run_main { sampleArgs with begin_ts := -1 } sampleEnv).1.all
            (fun x => !x.isQuery) = true) :=
  ⟨(begin_lookback_validation sampleArgs sampleEnv).2 (by decide) (by decide)
      (Or.inl rfl) rfl rfl (fun m hm => nomatch hm),
    (begin_lookback_validation { sampleArgs with begin_ts := -1 } sampleEnv).1
      (by decide)⟩

/-- C2: when both a minimum and a maximum timestamp are supplied and the
maximum precedes the minimum, the run is rejected before any query is
issued, and — the earlier configuration checks passing — the rejection is
the extraction driver's ValidationError. -/
theorem max_before_min_rejected (a : Args) (env : Env) (m : Timestamp)
    (h1 : a.end_ts = some m) (h2 : m < a.begin_ts) :
    (exitStatus (run_main a env).2 = 1
        ∧ (run_main a env).1.all (fun x => !x.isQuery) = true)
      ∧ (destination_invalid a = false →
          (a.output_format = "JSON" ∨ a.output_format = "CEF") →
          env.sinkOk = true → env.authOk = true →
          lookbackBoundary env.now ≤ a.begin_ts →
          (run_main a env).2 = some RunError.validationError) := by
  constructor
  · rcases run_main_shape a env with h | h
    · exact ⟨exitStatus_eq_one_of_isSome _ h.1, h.2⟩
    · exact absurd (h.2.2.2.2.1 m h1) (not_le.mpr h2)
  · intro hd hf hs ha hb
    have hv := verify_ok_of_valid a hd
    have hfm := get_log_formatter_ok_of a.output_format hf
    have hl : get_logger env = .ok () := by
      unfold get_logger
      rw [if_pos hs]
    have hsdk : create_sdk env = .ok () := by
      unfold create_sdk
      rw [if_pos ha]
    have hpm := parse_min_ok_of a.begin_ts env.now hb
    have hext : extractor_extract
        (if a.record_cursor then env.storedCursor else none)
        a.begin_ts a.end_ts = .error .validationError := by
      rw [h1]
      simp only [extractor_extract]
      rw [if_pos h2]
    simp only [run_main, hv, hfm, hl, hsdk, hpm, hext]

/-- Witness for C2: an end timestamp of 0 with a begin timestamp of
7776000 is rejected with the driver's ValidationError. -/
theorem max_before_min_rejected_witness :
    (run_main { sampleArgs with end_ts := some 0 } sampleEnv).2 =
      some RunError.validationError :=
  (max_before_min_rejected { sampleArgs with end_ts := some 0 } sampleEnv 0
      rfl (by decide)).2 (by decide) (Or.inl rfl) rfl rfl (by decide)

/-- C7: an invalid sink configuration — a destination supplied together
with the stdout destination type, a missing destination for the file or
server destination types, or a destination failing DNS resolution or file
writability — makes the run exit with status 1 before any extraction query
is issued. -/
theorem sink_config_fail_fast (a : Args) (env : Env)
    (h : destination_invalid a = true ∨ env.sinkOk = false) :
    exitStatus (run_main a env).2 = 1
      ∧ (run_main a env).1.all (fun x => !x.isQuery) = true := by
  rcases run_main_shape a env with hs | hs
  · exact ⟨exitStatus_eq_one_of_isSome _ hs.1, hs.2⟩
  · exfalso
    rcases h with h | h
    · rw [hs.1] at h
      exact absurd h (by decide)
    · rw [hs.2.1] at h
      exact absurd h (by decide)

/-- Witness for C7: a healthy configuration whose server hostname fails
DNS resolution exits before any query. -/
theorem sink_config_fail_fast_witness :
    exitStatus (run_main sampleArgs { sampleEnv with sinkOk := false }).2 = 1
      ∧ (run_main sampleArgs { sampleEnv with sinkOk := false }).1.all
          (fun x => !x.isQuery) = true :=
  sink_config_fail_fast sampleArgs { sampleEnv with sinkOk := false }
    (Or.inr rfl)

/-- C9: an output format other than exactly "JSON" or exactly "CEF"
(case-sensitively, so "json" is rejected) makes the run exit with status 1
before any formatter or sink is constructed and before any query is
issued: the trace is empty. -/
theorem invalid_format_exits_early (a : Args) (env : Env)
    (h1 : a.output_format ≠ "JSON") (h2 : a.output_format ≠ "CEF") :
    (run_main a env).1 = [] ∧ exitStatus (run_main a env).2 = 1 := by
  have hf : get_log_formatter a.output_format = .error .formatError := by
    unfold get_log_formatter
    rw [if_neg h1, if_neg h2]
  cases hv : verify_destination_args a with
  | error e =>
    have hrm : run_main a env = ([], some e) := by
      simp only [run_main, hv]
    rw [hrm]
    exact ⟨rfl, rfl⟩
  | ok u =>
    have hrm : run_main a env = ([], some .formatError) := by
      simp only [run_main, hv, hf]
    rw [hrm]
    exact ⟨rfl, rfl⟩

/-- Witness for C9: the lowercase format string "json" exits with status 1
and an empty trace. -/
theorem invalid_format_exits_early_witness :
    (run_main { sampleArgs with output_format := "json" } sampleEnv).1 = []
      ∧ exitStatus
          (run_main { sampleArgs with output_format := "json" } sampleEnv).2
          = 1 :=
  invalid_format_exits_early { sampleArgs with output_format := "json" }
    sampleEnv (by decide) (by decide)

/-- C4: a run invoked with the clear-cursor flag performs the cursor
store's reset before any extraction query it issues: in the trace, the
reset precedes the query. -/
theorem clear_cursor_reset_before_query (a : Args) (env : Env)
    (hc : a.clear_cursor = true) (m : Timestamp) (mx : Option Timestamp)
    (hq : Action.query m mx ∈ (run_main a env).1) :
    List.Sublist [Action.resetStore, Action.query m mx] (run_main a env).1 := by
  rcases run_main_shape a env with h | h
  · exfalso
    have hall := List.all_eq_true.mp h.2 _ hq
    simp [Action.isQuery] at hall
  · rw [h.2.2.2.2.2] at hq ⊢
    rw [hc, set_up_cursor_store_clear] at hq ⊢
    simp only [List.append_assoc, List.mem_append, List.mem_cons,
      List.mem_singleton, List.not_mem_nil, or_false] at hq
    rcases hq with (hq | hq) | hq | hq
    · exact Action.noConfusion hq
    · exact Action.noConfusion hq
    · exact Action.noConfusion hq
    · rw [hq]
      exact List.Sublist.cons _ (List.Sublist.cons _
        (List.Sublist.cons₂ _ (List.Sublist.cons₂ _ List.Sublist.slnil)))

/-- Witness for C4: with the clear-cursor flag, the reset precedes the
issued query in the concrete trace. -/
theorem clear_cursor_reset_before_query_witness :
    List.Sublist [Action.resetStore, Action.query 7776000 none]
      (run_main { sampleArgs with clear_cursor := true } sampleEnv).1 :=
  clear_cursor_reset_before_query { sampleArgs with clear_cursor := true }
    sampleEnv rfl 7776000 none (by decide)

/-- C6 counterexample: with checkpoint recording enabled and a stored
cursor present, a begin date resolving outside the 90-day window still
aborts the run before any query is issued — the caller-supplied begin date
and its look-back validation do affect the run, contrary to the claim that
they have no effect. -/
theorem checkpoint_min_cex :
    cexArgs.record_cursor = true
      ∧ cexEnv.storedCursor = some 100
      ∧ (run_main cexArgs cexEnv).2 = some RunError.lookbackError
      ∧ (run_main cexArgs cexEnv).1.all (fun x => !x.isQuery) = true := by
  decide

/-- C6 amended: whenever a run with checkpoint recording enabled and a
stored cursor present issues its query, the query window's minimum is the
stored cursor value verbatim; however the caller-supplied begin date is
still validated against the 90-day look-back boundary first, and a begin
date outside the window aborts the run before any query. -/
theorem checkpoint_min_verbatim (a : Args) (env : Env) (c m : Timestamp)
    (mx : Option Timestamp) (h1 : a.record_cursor = true)
    (h2 : env.storedCursor = some c)
    (hq : Action.query m mx ∈ (run_main a env).1) :
    m = c ∧ lookbackBoundary env.now ≤ a.begin_ts := by
  rcases run_main_shape a env with h | h
  · exfalso
    have hall := List.all_eq_true.mp h.2 _ hq
    simp [Action.isQuery] at hall
  · refine ⟨?_, h.2.2.2.1⟩
    rw [h.2.2.2.2.2, h1, h2] at hq
    simp only [if_true, Option.getD_some, List.append_assoc, List.mem_append,
      List.mem_cons, List.mem_singleton, List.not_mem_nil, or_false] at hq
    rcases hq with (hq | hq) | hq | hq
    · exact Action.noConfusion hq
    · exact Action.noConfusion hq
    · exfalso
      have hnq := List.all_eq_true.mp
        (set_up_cursor_store_no_query true a.clear_cursor) _ hq
      simp [Action.isQuery] at hnq
    · injection hq with hm hmx

/-- Witness for the amended C6: with a stored cursor of 100 and a valid
begin date, the issued query's minimum is 100. -/
theorem checkpoint_min_verbatim_witness :
    (100 : Timestamp) = 100
      ∧ lookbackBoundary ({ sampleEnv with storedCursor := some 100 } : Env).now
          ≤ ({ sampleArgs with record_cursor := true } : Args).begin_ts :=
  checkpoint_min_verbatim { sampleArgs with record_cursor := true }
    { sampleEnv with storedCursor := some 100 } 100 100 none rfl rfl (by decide)

/-- C3: a completed run with zero events and no error is reported as the
distinct "no results" outcome; an errored run is reported as an error, so
an empty result set is never reported as an error and an errored run is
never reported as a successful empty result. -/
theorem no_results_distinct (r : RunResult) :
    ((r.total_events = 0 ∧ r.had_errors = false) ↔ run_report r = .noResults)
      ∧ (r.had_errors = true → run_report r = .errored) := by
  rcases r with ⟨t, e⟩
  unfold run_report no_events_flag
  cases e <;> by_cases ht : t = 0 <;> simp [ht]

/-- Witness for C3: the empty, error-free run is reported as "no
results". -/
theorem no_results_distinct_witness :
    run_report ⟨0, false⟩ = RunReport.noResults :=
  (no_results_distinct ⟨0, false⟩).1.mp ⟨rfl, rfl⟩

/-- C5: the named checkpoint-delete command invokes the store's delete
operation for the given checkpoint name exactly once and issues no
extraction query. -/
theorem clear_checkpoint_deletes_once_no_query (s : StoreState) (n : String) :
    (clear_checkpoint s n).2.count (Action.deleteCheckpoint n) = 1
      ∧ ∀ x ∈ (clear_checkpoint s n).2, x.isQuery = false := by
  constructor
  · simp [clear_checkpoint]
  · intro x hx
    simp only [clear_checkpoint, List.mem_singleton] at hx
    subst hx
    rfl

/-- Witness for C5: deleting checkpoint "c" from a concrete store performs
exactly one delete and the performed action is not a query. -/
theorem clear_checkpoint_deletes_once_no_query_witness :
    (clear_checkpoint [("c", 5)] "c").2.count (Action.deleteCheckpoint "c") = 1
      ∧ (Action.deleteCheckpoint "c").isQuery = false :=
  ⟨(clear_checkpoint_deletes_once_no_query [("c", 5)] "c").1,
    (clear_checkpoint_deletes_once_no_query [("c", 5)] "c").2
      (Action.deleteCheckpoint "c") (by decide)⟩

/-- C8: for a page whose parsed body holds an event list, the response
handler emits exactly one formatted line per record, in exactly the order
the records appear. -/
theorem response_lines_per_record (format : Record → String)
    (d : List (String × List Record)) (events : List Record)
    (h : d.lookup "fileEvents" = some events) :
    handle_response format d = .ok (events.map format)
      ∧ (events.map format).length = events.length
      ∧ ∀ i, i < events.length →
          (events.map format).getD i "" = format (events.getD i ⟨[]⟩) := by
  refine ⟨?_, List.length_map _ _, ?_⟩
  · unfold handle_response
    rw [h]
  · intro i hi
    have h1 : (events.map format)[i]? = some (format events[i]) := by
      rw [List.getElem?_map, List.getElem?_eq_getElem hi]
      rfl
    have h2 : events[i]? = some events[i] := List.getElem?_eq_getElem hi
    rw [List.getD_eq_getElem?_getD, h1, List.getD_eq_getElem?_getD, h2]
    rfl

/-- Witness for C8: the handler emits the two formatted lines of
`sampleDict` in order. -/
theorem response_lines_per_record_witness :
    handle_response sampleFormat sampleDict =
      .ok ([sampleRecordA, sampleRecordB].map sampleFormat) :=
  (response_lines_per_record sampleFormat sampleDict
    [sampleRecordA, sampleRecordB] (by decide)).1

/-- C10: a response body that parses as JSON but holds no "fileEvents" key
produces no output lines and reports no error. -/
theorem missing_file_events_silent (format : Record → String)
    (d : List (String × List Record)) (h : d.lookup "fileEvents" = none) :
    handle_response format d = .ok [] := by
  unfold handle_response
  rw [h]

/-- Witness for C10: a body with other keys but no "fileEvents" yields the
empty, error-free output. -/
theorem missing_file_events_silent_witness :
    handle_response sampleFormat sampleDictNoEvents = .ok [] :=
  missing_file_events_silent sampleFormat sampleDictNoEvents (by decide)

end C42
